import Mathlib

/-!
Verification of the USB bulk-transfer framing layer of SwiftLibUSB
(`better-commandline/usb.c`), shallowly embedded in Lean.

Bytes are modelled as natural numbers reduced modulo 256 where the C code
stores into `unsigned char`; 32-bit unsigned arithmetic is modelled with
explicit `% 2^32`; `int` results from the host library are modelled as
`Int`.  Side effects on host-library resources are modelled as explicit
event lists.
-/

namespace SwiftLibUSB

/-- `#define writeTo 1` — code to write to a device. -/
def writeTo : Nat := 1

/-- `#define readFrom 2` — code to read from a device. -/
def readFrom : Nat := 2

/-- The payload length computed by `raw_write`: `length = strlen(data)`,
plus one when `messageType == writeTo` (room for the `'\n'` terminator). -/
def payloadLength (messageType dataLen : Nat) : Nat :=
  if messageType = writeTo then dataLen + 1 else dataLen

/-- The total frame size computed by `raw_write`:
`size = 12 + length; size = size + ((4 - (size % 4)) % 4);`. -/
def frameSize (len : Nat) : Nat :=
  12 + len + (4 - (12 + len) % 4) % 4

/-- The byte the `raw_write` frame holds at offset `i`.  The buffer is
`memset` to zero, then the header fields are assigned; for `writeTo`
messages `strcpy(message+12, data)` copies the payload and
`message[11+length] = '\n'` (with `length = dataLen + 1`) places the
terminator at offset `12 + dataLen`, overwriting the NUL `strcpy` wrote. -/
def frameByte (messageType seq : Nat) (data : List Nat) (i : Nat) : Nat :=
  if i = 0 then messageType % 256
  else if i = 1 then seq % 256
  else if i = 2 then 255 - seq % 256
  else if i = 4 then payloadLength messageType data.length % 256
  else if i = 5 then payloadLength messageType data.length / 256 % 256
  else if i = 6 then payloadLength messageType data.length / 65536 % 256
  else if i = 7 then payloadLength messageType data.length / 16777216 % 256
  else if i = 8 then 1
  else if i ≤ 11 then 0
  else if messageType = writeTo then
    (if i < 12 + data.length then data.getD (i - 12) 0
     else if i = 12 + data.length then 10
     else 0)
  else 0

/-- The complete frame `raw_write` builds and sends: `frameSize` bytes,
each given by `frameByte`. -/
def encode (messageType seq : Nat) (data : List Nat) : List Nat :=
  (List.range (frameSize (payloadLength messageType data.length))).map
    (frameByte messageType seq data)

/-- Header decoding: the message kind is byte 0. -/
def decodeKind (bytes : List Nat) : Nat := bytes.getD 0 0

/-- Header decoding: the sequence number is byte 1. -/
def decodeSeq (bytes : List Nat) : Nat := bytes.getD 1 0

/-- Header decoding: bytes 4..7 hold the payload length as a
little-endian 32-bit unsigned integer. -/
def decodeLen (bytes : List Nat) : Nat :=
  bytes.getD 4 0 + 256 * bytes.getD 5 0 + 65536 * bytes.getD 6 0 +
    16777216 * bytes.getD 7 0

/-- The sequence-counter step of `send_transfer` (and of `usb_read`'s
request phase): `messageIndex += 1` on an `unsigned char` wraps modulo
256, and `if (messageIndex == 0) messageIndex += 1;` turns a wrap to 0
into 1. -/
def nextSeq (s : Nat) : Nat :=
  if (s + 1) % 256 = 0 then 1 else (s + 1) % 256

/-- The value `messageIndex` holds after `n` frame-sending steps from the
connect-time initialisation `messageIndex = 1` (`usb_connect`). -/
def seqAfter : Nat → Nat
  | 0 => 1
  | n + 1 => nextSeq (seqAfter n)

/-- Byte `i` of the 12-byte request frame `usb_read` builds before
listening on the IN endpoint: `{readFrom, messageIndex, ~messageIndex, 0,
(size-12)&0xFF, ((size-12)>>8)&0xFF, ((size-12)>>16)&0xFF,
((size-12)>>24)&0xFF, 0,0,0,0}` where `size` is the caller's
`unsigned int` buffer size, so `size - 12` is computed modulo 2^32. -/
def readRequestByte (seq size i : Nat) : Nat :=
  if i = 0 then readFrom % 256
  else if i = 1 then seq % 256
  else if i = 2 then 255 - seq % 256
  else if i = 4 then (size + 4294967296 - 12) % 4294967296 % 256
  else if i = 5 then (size + 4294967296 - 12) % 4294967296 / 256 % 256
  else if i = 6 then (size + 4294967296 - 12) % 4294967296 / 65536 % 256
  else if i = 7 then (size + 4294967296 - 12) % 4294967296 / 16777216 % 256
  else 0

/-- The complete 12-byte request frame of `usb_read`. -/
def readRequestFrame (seq size : Nat) : List Nat :=
  (List.range 12).map (readRequestByte seq size)

/-- The completion information the host library hands to `callback`
(the fields of `struct libusb_transfer` the callback inspects). -/
structure TransferInfo where
  status : Int
  actual_length : Int
  length : Int
  endpoint : Nat
deriving DecidableEq

/-- The outcome classification of `callback`: sets `callbackError` to 0
when `info->status == 0 && ((info->actual_length == info->length) ||
(info->endpoint > 127))`, and to -1 otherwise. -/
def callbackError (info : TransferInfo) : Int :=
  if info.status = 0 ∧
      (info.actual_length = info.length ∨ 127 < info.endpoint) then 0
  else -1

/-- Modelled from the spec's words, for comparison with `callbackError`:
success iff the status indicates no error and the length condition
holds, where the length condition is `actual_length == requested_length`
for OUT transfers and `actual_length > 0` for IN transfers (endpoint
address above 127). -/
def specTransferSuccess (info : TransferInfo) : Prop :=
  info.status = 0 ∧
    (if 127 < info.endpoint then 0 < info.actual_length
     else info.actual_length = info.length)

/-- `send_transfer`, run against a host whose `libusb_submit_transfer`
returns `submit_err` and whose completed transfer reports `info`.
Returns (return value, number of `libusb_free_transfer` calls made,
`messageIndex` afterwards): a failed submission returns -1 at once —
without freeing the transfer and without touching `messageIndex`;
otherwise the call waits for the callback, frees the transfer, steps
`messageIndex` (skipping 0) and returns `callbackError`. -/
def send_transfer (submit_err : Int) (info : TransferInfo) (seq : Nat) :
    Int × Nat × Nat :=
  if submit_err ≠ 0 then (-1, 0, seq)
  else (callbackError info, 1, nextSeq seq)

/-- `raw_write`: encodes the frame for `data` with the current
`messageIndex` and sends it via `send_transfer`.  Returns (frame sent,
return value, `libusb_free_transfer` count, `messageIndex` afterwards). -/
def raw_write (submit_err : Int) (info : TransferInfo) (seq : Nat)
    (data : List Nat) (messageType : Nat) :
    List Nat × Int × Nat × Nat :=
  (encode messageType seq data, send_transfer submit_err info seq)

/-- `usb_write`: clears the halt condition and performs
`raw_write(usb, message, usb->out_endpoint, writeTo)`. -/
def usb_write (submit_err : Int) (info : TransferInfo) (seq : Nat)
    (data : List Nat) : List Nat × Int × Nat × Nat :=
  raw_write submit_err info seq data writeTo

/-- `usb_read`: builds the Receive-Request frame with the current
`messageIndex`, steps `messageIndex` (skipping 0), submits the request
on the OUT endpoint (its submission result is ignored), then receives on
the IN endpoint via `send_transfer`, which steps `messageIndex` a second
time.  Returns (request frame, return value, `messageIndex` afterwards),
for a host whose IN-transfer submission returns `in_submit_err` and
whose completed IN transfer reports `inInfo`. -/
def usb_read (in_submit_err : Int) (inInfo : TransferInfo)
    (seq size : Nat) : List Nat × Int × Nat :=
  (readRequestFrame seq size,
   (send_transfer in_submit_err inInfo (nextSeq seq)).1,
   (send_transfer in_submit_err inInfo (nextSeq seq)).2.2)

/-- The host-library resource operations `usb_connect` and `usb_close`
perform, recorded as events. -/
inductive Event where
  | openHandle : Event
  | closeHandle : Event
  | freeConfigDescriptor : Event
  | freeDeviceList : Event
deriving DecidableEq

/-- One entry of `struct libusb_endpoint_descriptor` as `usb_connect`
reads it. -/
structure EndpointDesc where
  bmAttributes : Nat
  bEndpointAddress : Nat
deriving DecidableEq

/-- One enumerated device together with the host-library outcomes
`usb_connect` observes while resolving it. -/
structure Device where
  descResult : Int
  idVendor : Nat
  idProduct : Nat
  openResult : Int
  configureResult : Int
  configDescResult : Int
  claimResult : Int
  altResult : Int
  endpoints : List EndpointDesc
deriving DecidableEq

/-- `(bmAttributes & 3) == LIBUSB_ENDPOINT_TRANSFER_TYPE_BULK` (= 2). -/
def isBulk (e : EndpointDesc) : Bool :=
  e.bmAttributes % 4 == 2

/-- `(bEndpointAddress >> 7) == LIBUSB_ENDPOINT_OUT` (= 0), on the
`unsigned char` endpoint address. -/
def isOutDir (e : EndpointDesc) : Bool :=
  e.bEndpointAddress / 128 == 0

/-- Whether the endpoint walk of `usb_connect` sets `has_out`. -/
def hasBulkOut (eps : List EndpointDesc) : Bool :=
  eps.any fun e => isBulk e && isOutDir e

/-- Whether the endpoint walk of `usb_connect` sets `has_in`. -/
def hasBulkIn (eps : List EndpointDesc) : Bool :=
  eps.any fun e => isBulk e && !(isOutDir e)

/-- The matched-device branch of `usb_connect`: open the handle,
configure, get the config descriptor, claim interface 0, set the
alternate setting, then walk the endpoints; each failure returns -1
after releasing exactly the resources acquired so far, in program
order. -/
def connectDevice (d : Device) : Int × List Event :=
  if d.openResult ≠ 0 then
    (-1, [Event.freeDeviceList])
  else if d.configureResult ≠ 0 ∧ d.configureResult ≠ -12 then
    (-1, [Event.openHandle, Event.closeHandle, Event.freeDeviceList])
  else if d.configDescResult ≠ 0 then
    (-1, [Event.openHandle, Event.closeHandle, Event.freeDeviceList])
  else if d.claimResult ≠ 0 then
    (-1, [Event.openHandle, Event.freeConfigDescriptor,
          Event.closeHandle, Event.freeDeviceList])
  else if d.altResult ≠ 0 then
    (-1, [Event.openHandle, Event.freeConfigDescriptor,
          Event.closeHandle, Event.freeDeviceList])
  else if hasBulkOut d.endpoints = false then
    (-1, [Event.openHandle, Event.freeConfigDescriptor,
          Event.closeHandle, Event.freeDeviceList])
  else if hasBulkIn d.endpoints = false then
    (-1, [Event.openHandle, Event.freeConfigDescriptor,
          Event.closeHandle, Event.freeDeviceList])
  else
    (0, [Event.openHandle, Event.freeConfigDescriptor,
         Event.freeDeviceList])

/-- The enumeration loop of `usb_connect`: skip devices whose descriptor
read fails, stop at the first device whose vendor and product ids both
match. -/
def findMatch (vid pid : Nat) : List Device → Option Device
  | [] => none
  | d :: rest =>
    if d.descResult = 0 ∧ d.idVendor = vid ∧ d.idProduct = pid then some d
    else findMatch vid pid rest

/-- `usb_connect`: get the device list, loop over it; with no match the
list is freed and -1 returned, otherwise the matched device is
resolved by `connectDevice`. -/
def usb_connect (vid pid : Nat) (devs : List Device) : Int × List Event :=
  match findMatch vid pid devs with
  | none => (-1, [Event.freeDeviceList])
  | some d => connectDevice d

/-- `usb_close`: re-attaches the kernel driver (its `attach_err` result
is ignored), calls `libusb_close` (void) and returns 0 unconditionally,
although its declared contract allows a -1 failure return. -/
def usb_close (attach_err : Int) : Int × List Event :=
  (0, [Event.closeHandle])

theorem frameSize_ge (len : Nat) : 12 ≤ frameSize len := by
  unfold frameSize; omega

theorem frameSize_mod4 (len : Nat) : frameSize len % 4 = 0 := by
  unfold frameSize; omega

theorem encode_length (mt seq : Nat) (data : List Nat) :
    (encode mt seq data).length = frameSize (payloadLength mt data.length) := by
  simp [encode]

theorem encode_getD (mt seq : Nat) (data : List Nat) (i : Nat)
    (h : i < frameSize (payloadLength mt data.length)) :
    (encode mt seq data).getD i 0 = frameByte mt seq data i := by
  simp [encode, List.getD_eq_getElem?_getD, List.getElem?_map,
    List.getElem?_range h]

theorem decode_recompose (a : Nat) (h : a < 4294967296) :
    a % 256 + 256 * (a / 256 % 256) + 65536 * (a / 65536 % 256) +
      16777216 * (a / 16777216 % 256) = a := by
  omega

theorem readRequest_getD (seq size i : Nat) (h : i < 12) :
    (readRequestFrame seq size).getD i 0 = readRequestByte seq size i := by
  simp [readRequestFrame, List.getD_eq_getElem?_getD, List.getElem?_map,
    List.getElem?_range h]

theorem seqAfter_formula (n : Nat) : seqAfter n = n % 255 + 1 := by
  induction n with
  | zero => rfl
  | succ n ih =>
    rw [seqAfter, ih]
    unfold nextSeq
    split_ifs with h <;> omega

/-- C1: for every payload byte sequence of length `L` and every sequence
byte `seq` in 1..255, decoding the header of
`encode(Send, seq, payload, appendTerminator = true)` recovers kind = Send
(byte 0 equals 1), sequence = `seq` (byte 1), and a little-endian 32-bit
length field (bytes 4..7) equal to `L + 1`, the appended terminator
counted. -/
theorem encode_send_decode_roundtrip (seq : Nat) (data : List Nat)
    (hseq1 : 1 ≤ seq) (hseq2 : seq ≤ 255)
    (hlen : data.length + 1 < 4294967296) :
    decodeKind (encode writeTo seq data) = 1 ∧
    decodeSeq (encode writeTo seq data) = seq ∧
    decodeLen (encode writeTo seq data) = data.length + 1 := by
  have h12 := frameSize_ge (payloadLength writeTo data.length)
  have hpl : payloadLength writeTo data.length = data.length + 1 := by
    simp [payloadLength]
  refine ⟨?_, ?_, ?_⟩
  · rw [decodeKind, encode_getD _ _ _ 0 (by omega)]
    simp [frameByte, writeTo]
  · rw [decodeSeq, encode_getD _ _ _ 1 (by omega)]
    simp [frameByte]
    omega
  · rw [decodeLen, encode_getD _ _ _ 4 (by omega),
      encode_getD _ _ _ 5 (by omega), encode_getD _ _ _ 6 (by omega),
      encode_getD _ _ _ 7 (by omega)]
    simp only [frameByte, hpl]
    norm_num
    omega

theorem encode_send_decode_roundtrip_witness :
    decodeKind (encode writeTo 5 [42, 43]) = 1 ∧
    decodeSeq (encode writeTo 5 [42, 43]) = 5 ∧
    decodeLen (encode writeTo 5 [42, 43]) = 3 :=
  encode_send_decode_roundtrip 5 [42, 43] (by decide) (by decide) (by decide)

/-- C3: for every payload and message kind the encoded frame length is a
multiple of 4 and at least 12, and every byte that is neither a header
field (offsets 0,1,2,4..8), a payload byte (offsets 12..12+L-1), nor the
appended terminator (offset 12+L, present only for Send frames) equals
zero: the reserved header bytes 3 and 9..11 and all trailing padding are
zero. -/
theorem encode_padded_and_aligned (mt seq : Nat) (data : List Nat) :
    frameSize (payloadLength mt data.length) % 4 = 0 ∧
    12 ≤ frameSize (payloadLength mt data.length) ∧
    (encode mt seq data).length = frameSize (payloadLength mt data.length) ∧
    (∀ i, i < frameSize (payloadLength mt data.length) →
      (i = 3 ∨ (9 ≤ i ∧ i ≤ 11) ∨
        12 + data.length + (if mt = writeTo then 1 else 0) ≤ i) →
      (encode mt seq data).getD i 0 = 0) := by
  refine ⟨frameSize_mod4 _, frameSize_ge _, encode_length mt seq data, ?_⟩
  intro i hi hcase
  rw [encode_getD _ _ _ i hi]
  unfold frameByte
  by_cases hmt : mt = writeTo
  · rw [if_pos hmt] at hcase
    rcases hcase with h3 | h911 | hpad
    · subst h3; rfl
    · have h : i = 9 ∨ i = 10 ∨ i = 11 := by omega
      rcases h with h | h | h <;> subst h <;> rfl
    · rw [if_neg (show ¬ i = 0 by omega), if_neg (show ¬ i = 1 by omega),
        if_neg (show ¬ i = 2 by omega), if_neg (show ¬ i = 4 by omega),
        if_neg (show ¬ i = 5 by omega), if_neg (show ¬ i = 6 by omega),
        if_neg (show ¬ i = 7 by omega), if_neg (show ¬ i = 8 by omega),
        if_neg (show ¬ i ≤ 11 by omega), if_pos hmt,
        if_neg (show ¬ i < 12 + data.length by omega),
        if_neg (show ¬ i = 12 + data.length by omega)]
  · rw [if_neg hmt] at hcase
    rcases hcase with h3 | h911 | hpad
    · subst h3; rfl
    · have h : i = 9 ∨ i = 10 ∨ i = 11 := by omega
      rcases h with h | h | h <;> subst h <;> rfl
    · rw [if_neg (show ¬ i = 0 by omega), if_neg (show ¬ i = 1 by omega),
        if_neg (show ¬ i = 2 by omega), if_neg (show ¬ i = 4 by omega),
        if_neg (show ¬ i = 5 by omega), if_neg (show ¬ i = 6 by omega),
        if_neg (show ¬ i = 7 by omega), if_neg (show ¬ i = 8 by omega),
        if_neg (show ¬ i ≤ 11 by omega), if_neg hmt]

theorem encode_padded_and_aligned_witness :
    frameSize (payloadLength writeTo ([79, 78] : List Nat).length) % 4 = 0 ∧
    12 ≤ frameSize (payloadLength writeTo ([79, 78] : List Nat).length) ∧
    (encode writeTo 5 [79, 78]).length =
      frameSize (payloadLength writeTo ([79, 78] : List Nat).length) ∧
    (encode writeTo 5 [79, 78]).getD 9 0 = 0 := by
  obtain ⟨h1, h2, h3, h4⟩ := encode_padded_and_aligned writeTo 5 [79, 78]
  exact ⟨h1, h2, h3, h4 9 (by decide) (by decide)⟩

/-- C4: the sequence counter starts at 1 on connect and each step
returns the current value then increments modulo 256, re-incrementing a
wrap to 0 into 1, so after any number `n` of steps the emitted value is
`n % 255 + 1`: it is never 0, stays in 1..255, and cycles
1,2,...,255,1,2,... -/
theorem messageIndex_cycle (n : Nat) :
    seqAfter 0 = 1 ∧
    seqAfter n = n % 255 + 1 ∧
    seqAfter n ≠ 0 ∧ 1 ≤ seqAfter n ∧ seqAfter n ≤ 255 := by
  have h := seqAfter_formula n
  refine ⟨rfl, h, ?_, ?_, ?_⟩ <;> omega

/-- C2 counterexample: the claim says header byte 8 (the end-of-message
flag) equals 1 in every frame the program encodes, but the
Receive-Request frame `usb_read` builds (here with sequence 1 and buffer
size 64) has byte 8 equal to 0, not 1. -/
theorem readRequest_eom_zero :
    (readRequestFrame 1 64).getD 8 0 = 0 ∧
    (readRequestFrame 1 64).getD 8 0 ≠ 1 := by
  rw [readRequest_getD 1 64 8 (by omega)]
  exact ⟨by decide, by decide⟩

/-- C2 amended: every frame encoded by `raw_write` — Send (kind 1) or
Receive-Request (kind 2) alike — has header byte 8 equal to 1, but the
Receive-Request frame that `usb_read` builds directly has header byte 8
equal to 0. -/
theorem eom_flag_by_encoder (mt seq size : Nat) (data : List Nat) :
    (encode mt seq data).getD 8 0 = 1 ∧
    (readRequestFrame seq size).getD 8 0 = 0 := by
  constructor
  · have h12 := frameSize_ge (payloadLength mt data.length)
    rw [encode_getD _ _ _ 8 (by omega)]
    rfl
  · rw [readRequest_getD seq size 8 (by omega)]
    rfl

/-- C10: in `usb_read` the length field of the request frame is
`size - 12` computed in unsigned 32-bit arithmetic: for `size < 12` it
underflows to `(size - 12) mod 2^32`, a value of at least `2^32 - 12`,
rather than a non-negative byte count; for `size ≥ 12` it equals
`size - 12`. -/
theorem readRequest_length_underflow (seq size : Nat)
    (hsize : size < 4294967296) :
    (size < 12 →
      decodeLen (readRequestFrame seq size) =
        (size + 4294967296 - 12) % 4294967296 ∧
      4294967284 ≤ decodeLen (readRequestFrame seq size)) ∧
    (12 ≤ size → decodeLen (readRequestFrame seq size) = size - 12) := by
  have hlt : (size + 4294967296 - 12) % 4294967296 < 4294967296 :=
    Nat.mod_lt _ (by omega)
  have hd : decodeLen (readRequestFrame seq size) =
      (size + 4294967296 - 12) % 4294967296 := by
    have e4 : readRequestByte seq size 4 =
        (size + 4294967296 - 12) % 4294967296 % 256 := by
      simp [readRequestByte]
    have e5 : readRequestByte seq size 5 =
        (size + 4294967296 - 12) % 4294967296 / 256 % 256 := by
      simp [readRequestByte]
    have e6 : readRequestByte seq size 6 =
        (size + 4294967296 - 12) % 4294967296 / 65536 % 256 := by
      simp [readRequestByte]
    have e7 : readRequestByte seq size 7 =
        (size + 4294967296 - 12) % 4294967296 / 16777216 % 256 := by
      simp [readRequestByte]
    unfold decodeLen
    rw [readRequest_getD _ _ 4 (by omega), readRequest_getD _ _ 5 (by omega),
      readRequest_getD _ _ 6 (by omega), readRequest_getD _ _ 7 (by omega),
      e4, e5, e6, e7]
    exact decode_recompose _ hlt
  constructor
  · intro h
    refine ⟨hd, ?_⟩
    rw [hd]
    omega
  · intro h
    rw [hd]
    omega

theorem readRequest_length_underflow_witness :
    decodeLen (readRequestFrame 1 0) = 4294967284 ∧
    decodeLen (readRequestFrame 1 64) = 52 := by
  have h0 := (readRequest_length_underflow 1 0 (by omega)).1 (by omega)
  have h64 := (readRequest_length_underflow 1 64 (by omega)).2 (by omega)
  exact ⟨by rw [h0.1], by rw [h64]⟩

/-- C5 counterexample: the claim says the callback classifies a
completed transfer as success iff the status is 0 and, for IN transfers,
`actual_length > 0`; but on an IN transfer (endpoint 129) with status 0
and `actual_length = 0` the callback still reports success (0), so the
two classifications disagree. -/
theorem callback_spec_mismatch :
    ¬ (callbackError ⟨0, 0, 5, 129⟩ = 0 ↔
        specTransferSuccess ⟨0, 0, 5, 129⟩) := by
  intro h
  have h0 : callbackError ⟨0, 0, 5, 129⟩ = 0 := by
    norm_num [callbackError]
  have hs := h.mp h0
  rw [specTransferSuccess] at hs
  norm_num at hs

/-- C5 amended: the callback classifies a completed transfer as success
(`callbackError = 0`) iff the reported status is 0 and either all
requested bytes were transferred (`actual_length = length`) or the
endpoint is an IN endpoint (address above 127); in particular on IN
transfers success depends only on the status — no condition on
`actual_length`, not even `actual_length > 0`, is imposed. -/
theorem callback_classification (info : TransferInfo) :
    (127 < info.endpoint →
      (callbackError info = 0 ↔ info.status = 0)) ∧
    (info.endpoint ≤ 127 →
      (callbackError info = 0 ↔
        info.status = 0 ∧ info.actual_length = info.length)) := by
  unfold callbackError
  constructor
  · intro hin
    split_ifs with h
    · exact ⟨fun _ => h.1, fun _ => rfl⟩
    · constructor
      · intro h0; exact absurd h0 (by decide)
      · intro hs; exact absurd ⟨hs, Or.inr hin⟩ h
  · intro hout
    split_ifs with h
    · refine ⟨fun _ => ⟨h.1, ?_⟩, fun _ => rfl⟩
      rcases h.2 with hl | hep
      · exact hl
      · omega
    · constructor
      · intro h0; exact absurd h0 (by decide)
      · intro hs; exact absurd ⟨hs.1, Or.inl hs.2⟩ h

theorem callback_classification_witness :
    callbackError ⟨0, 0, 5, 129⟩ = 0 :=
  ((callback_classification ⟨0, 0, 5, 129⟩).1 (by norm_num)).mpr rfl

/-- C6: the transfer resource is NOT released on every exit path of
`send_transfer`: when `libusb_submit_transfer` fails (returns -1) the
function returns -1 having performed zero `libusb_free_transfer` calls
and leaves `messageIndex` untouched, while on every completion path the
transfer is freed exactly once — so the early submission-error path
leaks the transfer `raw_write` allocated. -/
theorem send_transfer_submit_error_leak :
    send_transfer (-1) ⟨0, 0, 0, 2⟩ 1 = (-1, 0, 1) ∧
    (∀ info seq, (send_transfer 0 info seq).2.1 = 1) := by
  constructor
  · norm_num [send_transfer]
  · intro info seq
    norm_num [send_transfer]

/-- C7 counterexample: the claim says a read advances the Session's
sequence value by exactly one, but `usb_read` from sequence value 1
(with a successful IN transfer) leaves `messageIndex` at 3, not at
`nextSeq 1 = 2`: it increments once after building the request frame and
a second time inside `send_transfer` for the IN data transfer. -/
theorem usb_read_double_increment :
    (usb_read 0 ⟨0, 5, 64, 129⟩ 1 64).2.2 = 3 ∧ nextSeq 1 = 2 := by
  constructor
  · norm_num [usb_read, send_transfer, nextSeq]
  · norm_num [nextSeq]

/-- C7 amended: a write sends one Send frame and advances `messageIndex`
by exactly one step, while a read sends one Receive-Request frame but
advances `messageIndex` by exactly two steps: once after the request
frame and once more inside `send_transfer` after the IN data transfer. -/
theorem seq_advance_per_op (info : TransferInfo) (seq size : Nat)
    (data : List Nat) :
    (usb_write 0 info seq data).1 = encode writeTo seq data ∧
    (usb_write 0 info seq data).2.2.2 = nextSeq seq ∧
    (usb_read 0 info seq size).1 = readRequestFrame seq size ∧
    (usb_read 0 info seq size).2.2 = nextSeq (nextSeq seq) := by
  refine ⟨rfl, ?_, rfl, ?_⟩ <;>
    simp [usb_write, usb_read, raw_write, send_transfer]

/-- C8: whenever device resolution reaches the endpoint walk (the match
was found, opening, configuring, descriptor read, claiming and
alternate-setting all succeeded) and the claimed interface is missing a
bulk OUT or a bulk IN endpoint, `usb_connect` returns -1 and leaves no
open handle: the handle it opened is closed exactly once (one close per
open) and the device list is freed exactly once before the return. -/
theorem usb_connect_missing_endpoint_cleanup
    (vid pid : Nat) (devs : List Device) (d : Device)
    (hfind : findMatch vid pid devs = some d)
    (hopen : d.openResult = 0)
    (hconf : d.configureResult = 0 ∨ d.configureResult = -12)
    (hcdesc : d.configDescResult = 0)
    (hclaim : d.claimResult = 0)
    (halt : d.altResult = 0)
    (hmiss : hasBulkOut d.endpoints = false ∨ hasBulkIn d.endpoints = false) :
    (usb_connect vid pid devs).1 = -1 ∧
    (usb_connect vid pid devs).2.count Event.closeHandle = 1 ∧
    (usb_connect vid pid devs).2.count Event.openHandle = 1 ∧
    (usb_connect vid pid devs).2.count Event.freeDeviceList = 1 := by
  have hcd : usb_connect vid pid devs = connectDevice d := by
    unfold usb_connect
    rw [hfind]
  rw [hcd]
  unfold connectDevice
  rw [if_neg (show ¬ d.openResult ≠ 0 by simp [hopen]),
    if_neg (show ¬ (d.configureResult ≠ 0 ∧ d.configureResult ≠ -12) by
      rcases hconf with h | h <;> simp [h]),
    if_neg (show ¬ d.configDescResult ≠ 0 by simp [hcdesc]),
    if_neg (show ¬ d.claimResult ≠ 0 by simp [hclaim]),
    if_neg (show ¬ d.altResult ≠ 0 by simp [halt])]
  rcases hmiss with hm | hm
  · rw [if_pos hm]
    exact ⟨rfl, by decide, by decide, by decide⟩
  · by_cases hout : hasBulkOut d.endpoints = false
    · rw [if_pos hout]
      exact ⟨rfl, by decide, by decide, by decide⟩
    · rw [if_neg hout, if_pos hm]
      exact ⟨rfl, by decide, by decide, by decide⟩

theorem usb_connect_missing_endpoint_cleanup_witness :
    (usb_connect 10 20 [⟨0, 10, 20, 0, 0, 0, 0, 0, [⟨2, 129⟩]⟩]).1 = -1 ∧
    (usb_connect 10 20
      [⟨0, 10, 20, 0, 0, 0, 0, 0, [⟨2, 129⟩]⟩]).2.count Event.closeHandle = 1 ∧
    (usb_connect 10 20
      [⟨0, 10, 20, 0, 0, 0, 0, 0, [⟨2, 129⟩]⟩]).2.count Event.openHandle = 1 ∧
    (usb_connect 10 20
      [⟨0, 10, 20, 0, 0, 0, 0, 0, [⟨2, 129⟩]⟩]).2.count Event.freeDeviceList = 1 :=
  usb_connect_missing_endpoint_cleanup 10 20
    [⟨0, 10, 20, 0, 0, 0, 0, 0, [⟨2, 129⟩]⟩]
    ⟨0, 10, 20, 0, 0, 0, 0, 0, [⟨2, 129⟩]⟩
    (by decide) rfl (Or.inl rfl) rfl rfl rfl (Or.inl (by decide))

/-- C9: `usb_close` returns 0 for every host-library outcome of the
kernel-driver re-attach: there is no input on which it reports the -1
failure its declared contract allows. -/
theorem usb_close_always_succeeds (attach_err : Int) :
    (usb_close attach_err).1 = 0 ∧ (usb_close attach_err).1 ≠ -1 := by
  refine ⟨rfl, ?_⟩
  show (0 : Int) ≠ -1
  decide

end SwiftLibUSB
